import Mathlib

/-
Verification development for the originalCapture attestation verification
backend (Python sources: backend/main.py, backend/utils_crypto.py,
backend/utils_x509_attestation.py).

Shallow embedding conventions:
 - Byte strings are modelled as List Nat with each entry a byte value.
 - Pure library primitives that the backend relies on and whose behaviour
   matters to the claims (SHA-256, base64) are implemented concretely.
 - External libraries whose internals are out of scope for the repository
   (json, cryptography x509 parsing, certvalidator, pyasn1 DER decoding,
   the low-level EC and RSA verification) are modelled as oracle functions
   collected in an Env record; the repository code under verification is
   the sequencing, comparisons and dispatch around these calls.
 - Python exceptions are modelled explicitly: caught exceptions become the
   HTTP error the handler raises; exceptions that the handler does not
   catch become an HErr.uncaught value (FastAPI would report a 500).
 - The orchestrator additionally returns an event trace recording which
   pipeline steps completed and when the trust-store file is opened, so
   that ordering and short-circuit claims are statable.
-/

/-! ## Bytes -/

abbrev Bytes := List Nat

/-! ## Base64 (models Python base64.b64decode / b64encode on well-formed
inputs; the Lean decoder is strict, accepting only canonical alphabet
characters and a correctly padded length, a subset of what Python accepts;
on that subset the two agree) -/

def b64val (c : Char) : Option Nat :=
  let n := c.toNat
  if 65 ≤ n && n ≤ 90 then some (n - 65)
  else if 97 ≤ n && n ≤ 122 then some (n - 97 + 26)
  else if 48 ≤ n && n ≤ 57 then some (n - 48 + 52)
  else if n = 43 then some 62
  else if n = 47 then some 63
  else none

def b64decodeGroups : List Char → Option (List Nat)
  | [] => some []
  | a :: b :: c :: d :: rest =>
    match b64val a, b64val b with
    | some va, some vb =>
      if c = '=' then
        if d = '=' && rest.isEmpty then some [va * 4 + vb / 16] else none
      else
        match b64val c with
        | some vc =>
          if d = '=' then
            if rest.isEmpty then some [va * 4 + vb / 16, (vb % 16) * 16 + vc / 4]
            else none
          else
            match b64val d with
            | some vd =>
              (b64decodeGroups rest).map
                (fun t => (va * 4 + vb / 16) :: ((vb % 16) * 16 + vc / 4) ::
                          ((vc % 4) * 64 + vd) :: t)
            | none => none
        | none => none
    | _, _ => none
  | _ => none

def b64decode (s : String) : Option Bytes :=
  b64decodeGroups s.data

def b64char (n : Nat) : Char :=
  if n < 26 then Char.ofNat (65 + n)
  else if n < 52 then Char.ofNat (97 + (n - 26))
  else if n < 62 then Char.ofNat (48 + (n - 52))
  else if n = 62 then '+'
  else '/'

def b64encodeGroups : List Nat → List Char
  | [] => []
  | [a] => [b64char (a / 4), b64char ((a % 4) * 16), '=', '=']
  | [a, b] => [b64char (a / 4), b64char ((a % 4) * 16 + b / 16),
               b64char ((b % 16) * 4), '=']
  | a :: b :: c :: rest =>
      b64char (a / 4) :: b64char ((a % 4) * 16 + b / 16) ::
      b64char ((b % 16) * 4 + c / 64) :: b64char (c % 64) ::
      b64encodeGroups rest

def b64encode (bs : Bytes) : String :=
  ⟨b64encodeGroups bs⟩

/-! ## SHA-256 (models hashlib.sha256(data).digest(), FIPS 180-4) -/

def w32 (n : Nat) : Nat := n % 4294967296

def rotr32 (n x : Nat) : Nat := x / 2 ^ n + x % 2 ^ n * 2 ^ (32 - n)

def ssig0 (x : Nat) : Nat := Nat.xor (Nat.xor (rotr32 7 x) (rotr32 18 x)) (x / 2 ^ 3)

def ssig1 (x : Nat) : Nat := Nat.xor (Nat.xor (rotr32 17 x) (rotr32 19 x)) (x / 2 ^ 10)

def bsig0 (x : Nat) : Nat := Nat.xor (Nat.xor (rotr32 2 x) (rotr32 13 x)) (rotr32 22 x)

def bsig1 (x : Nat) : Nat := Nat.xor (Nat.xor (rotr32 6 x) (rotr32 11 x)) (rotr32 25 x)

def chFn (e f g : Nat) : Nat := Nat.xor (Nat.land e f) (Nat.land (4294967295 - e) g)

def majFn (a b c : Nat) : Nat :=
  Nat.xor (Nat.xor (Nat.land a b) (Nat.land a c)) (Nat.land b c)

def SHA_K : List Nat :=
  [ 1116352408, 1899447441, 3049323471, 3921009573, 961987163, 1508970993,
    2453635748, 2870763221, 3624381080, 310598401, 607225278, 1426881987,
    1925078388, 2162078206, 2614888103, 3248222580, 3835390401, 4022224774,
    264347078, 604807628, 770255983, 1249150122, 1555081692, 1996064986,
    2554220882, 2821834349, 2952996808, 3210313671, 3336571891, 3584528711,
    113926993, 338241895, 666307205, 773529912, 1294757372, 1396182291,
    1695183700, 1986661051, 2177026350, 2456956037, 2730485921, 2820302411,
    3259730800, 3345764771, 3516065817, 3600352804, 4094571909, 275423344,
    430227734, 506948616, 659060556, 883997877, 958139571, 1322822218,
    1537002063, 1747873779, 1955562222, 2024104815, 2227730452, 2361852424,
    2428436474, 2756734187, 3204031479, 3329325298 ]

structure SHAState where
  a : Nat
  b : Nat
  c : Nat
  d : Nat
  e : Nat
  f : Nat
  g : Nat
  h : Nat
  deriving DecidableEq

def SHA_H0 : SHAState :=
  ⟨1779033703, 3144134277, 1013904242, 2773480762,
   1359893119, 2600822924, 528734635, 1541459225⟩

def bytesToWords : List Nat → List Nat
  | a :: b :: c :: d :: rest =>
      (a * 16777216 + b * 65536 + c * 256 + d) :: bytesToWords rest
  | _ => []

def natToBytesBE : Nat → Nat → List Nat
  | 0, _ => []
  | k + 1, n => natToBytesBE k (n / 256) ++ [n % 256]

def sha_extend : Nat → List Nat → List Nat
  | 0, ws => ws
  | n + 1, ws =>
      let l := ws.length
      let w := w32 (ssig1 (ws.getD (l - 2) 0) + ws.getD (l - 7) 0 +
                    ssig0 (ws.getD (l - 15) 0) + ws.getD (l - 16) 0)
      sha_extend n (ws ++ [w])

def sha_round (st : SHAState) (k w : Nat) : SHAState :=
  let t1 := w32 (st.h + bsig1 st.e + chFn st.e st.f st.g + k + w)
  let t2 := w32 (bsig0 st.a + majFn st.a st.b st.c)
  ⟨w32 (t1 + t2), st.a, st.b, st.c, w32 (st.d + t1), st.e, st.f, st.g⟩

def sha_rounds : List (Nat × Nat) → SHAState → SHAState
  | [], st => st
  | kw :: rest, st => sha_rounds rest (sha_round st kw.1 kw.2)

def sha_compress (st : SHAState) (block : List Nat) : SHAState :=
  let ws := sha_extend 48 (bytesToWords block)
  let s2 := sha_rounds (SHA_K.zip ws) st
  ⟨w32 (st.a + s2.a), w32 (st.b + s2.b), w32 (st.c + s2.c), w32 (st.d + s2.d),
   w32 (st.e + s2.e), w32 (st.f + s2.f), w32 (st.g + s2.g), w32 (st.h + s2.h)⟩

def sha_blocks : Nat → SHAState → List Nat → SHAState
  | 0, st, _ => st
  | n + 1, st, bs => sha_blocks n (sha_compress st (bs.take 64)) (bs.drop 64)

def sha_pad (msg : List Nat) : List Nat :=
  let l := msg.length
  let z := (119 - l % 64) % 64
  msg ++ 128 :: List.replicate z 0 ++ natToBytesBE 8 (8 * l)

/-- Embeds utils_crypto.sha256_bytes: hashlib.sha256(data).digest().
The map by mod 256 totalizes the Lean model on arbitrary Nat lists; on
genuine byte strings it is the identity. -/
def sha256_bytes (data : Bytes) : Bytes :=
  let msg := data.map (· % 256)
  let padded := sha_pad msg
  let fin := sha_blocks (padded.length / 64) SHA_H0 padded
  natToBytesBE 4 fin.a ++ natToBytesBE 4 fin.b ++ natToBytesBE 4 fin.c ++
  natToBytesBE 4 fin.d ++ natToBytesBE 4 fin.e ++ natToBytesBE 4 fin.f ++
  natToBytesBE 4 fin.g ++ natToBytesBE 4 fin.h

/-! ## Data model

PayloadObj models the parsed JSON payload restricted to the fields the
backend reads (dict lookups with .get, a missing key giving None).
AttDict models the dict built by extract_key_description_from_cert,
again with Option fields standing for the possible absence of a key.
Config models the process-wide config.yaml policy keys. -/

structure PayloadObj where
  content_hash_b64 : Option String := none
  nonce_b64 : Option String := none
  app_id : Option String := none
  deriving DecidableEq

structure AttDict where
  attestationVersion : Option Int := none
  attestationSecurityLevel : Option Int := none
  keymasterSecurityLevel : Option Int := none
  attestationChallenge : Option Bytes := none
  osPatchLevel : Option Int := none
  deriving DecidableEq

structure Config where
  require_hardware_backed : Option Bool := none
  expected_app_id : Option String := none
  min_patch_level : Option Int := none
  deriving DecidableEq

/-- Python truthiness of an optional string value: None and the empty
string are falsy. -/
def pyTruthyStr : Option String → Bool
  | none => false
  | some s => s ≠ ""

/-- Python truthiness of an optional int value: None and 0 are falsy. -/
def pyTruthyInt : Option Int → Bool
  | none => false
  | some n => n ≠ 0

/-- A public key as the Signature Verifier sees it: the branch of the
isinstance dispatch in utils_crypto.verify_signature_with_pubkey, with the
EC and RSA constructors carrying the behaviour of the underlying library
verification call (true: verifies; false: the library raises
InvalidSignature, which the function catches). -/
inductive PubKey where
  | ec (verify : Bytes → Bytes → Bool)
  | rsa (verify : Bytes → Bytes → Bool)
  | other

/-- Embeds utils_crypto.verify_signature_with_pubkey. The library calls
take (sig_bytes, payload_bytes) in that order, mirroring
pubkey.verify(sig_bytes, payload_bytes, ...). An unknown key type returns
False on the else branch without consulting any verification function; a
failed library verification raises InvalidSignature which is caught and
returned as False. The function is total: no exception escapes. -/
def verify_signature_with_pubkey (pubkey : PubKey) (payload_bytes sig_bytes : Bytes) :
    Bool :=
  match pubkey with
  | .ec v => v sig_bytes payload_bytes
  | .rsa v => v sig_bytes payload_bytes
  | .other => false

/-- The decoded KeyDescription ASN.1 sequence (pyasn1 output), by
structural position as in utils_x509_attestation.KeyDescription. The two
authorization lists are kept as opaque byte regions. -/
structure KeyDescription where
  attestationVersion : Int
  attestationSecurityLevel : Int
  keymasterVersion : Int
  keymasterSecurityLevel : Int
  attestationChallenge : Bytes
  uniqueId : Bytes
  softwareEnforced : Bytes
  teeEnforced : Bytes

/-- An X.509 certificate as the backend observes it: its public key and
the raw bytes of the attestation extension at KEY_DESCRIPTION_OID when
present. -/
structure Certificate where
  pubkey : PubKey
  attExt : Option Bytes

/-- Oracle record for the external libraries and the filesystem, plus the
process-wide config loaded at startup. json_loads_payload and
json_loads_strlist model json.loads on the payload string and on a string
expected to hold a JSON array of strings (None modelling a raised
exception); parse_der_cert models x509.load_der_x509_certificate;
load_pem_cert models x509.load_pem_x509_certificate; cert_validate models
CertificateValidator(leaf, intermediates, context(roots)).validate_usage,
returning none on success and some message for a raised exception;
der_decode_keydesc models pyasn1 der_decoder.decode with the
KeyDescription spec; trust_store_file is the content of the file at
TRUST_STORE_FILE (none: the file is missing and open raises). -/
structure Env where
  json_loads_payload : String → Option PayloadObj
  json_loads_strlist : String → Option (List String)
  parse_der_cert : Bytes → Option Certificate
  load_pem_cert : String → Option Certificate
  cert_validate : Certificate → List Certificate → List Certificate → Option String
  der_decode_keydesc : Bytes → Except String KeyDescription
  trust_store_file : Option String
  config : Config

/-! ## utils_x509_attestation helpers -/

/-- Embeds load_cert_chain_from_b64_list: for each base64 entry, decode
and parse a DER certificate, in order; any failure propagates (the caller
in main.py catches it as invalid x5c_der_b64). -/
def load_cert_chain_from_b64_list (env : Env) : List String → Option (List Certificate)
  | [] => some []
  | b :: rest =>
    match b64decode b with
    | none => none
    | some der =>
      match env.parse_der_cert der with
      | none => none
      | some cert => (load_cert_chain_from_b64_list env rest).map (cert :: ·)

/-- Loading each trust-anchor PEM in turn (the for loop over pem_list in
validate_chain_against_roots); a failure raises, uncaught. -/
def load_pems (env : Env) : List String → Option (List Certificate)
  | [] => some []
  | p :: rest =>
    match env.load_pem_cert p with
    | none => none
    | some c => (load_pems env rest).map (c :: ·)

/-- Pipeline events: the seven orchestrator steps of main.verify_endpoint,
recorded when the step completes successfully, plus readTrustStore,
recorded when validate_chain_against_roots opens the trust-store file. -/
inductive Ev where
  | decodeInputs
  | loadChain
  | bindContentHash
  | verifySignature
  | readTrustStore
  | validateChain
  | parseAttestation
  | enforcePolicy
  deriving DecidableEq, BEq

/-- Embeds validate_chain_against_roots. The first component of the
result records that the function opens the trust-store file as its first
action, before any validation. Inside the function, only the
CertificateValidator call is wrapped in try/except; opening the file,
json.load on it and the PEM parsing loop are not, so their failures are
modelled as Except.error (an exception escaping to the caller). -/
def validate_chain_against_roots (env : Env) (chain : List Certificate) :
    List Ev × Except String (Bool × String) :=
  ([Ev.readTrustStore],
    match env.trust_store_file with
    | none => .error "FileNotFoundError: trust store file missing"
    | some content =>
      match env.json_loads_strlist content with
      | none => .error "json.load failed on trust store file"
      | some pem_list =>
        match load_pems env pem_list with
        | none => .error "failed to load PEM trust anchor"
        | some trust_roots =>
          match chain with
          | [] => .error "IndexError: empty chain"
          | leaf :: intermediates =>
            match env.cert_validate leaf intermediates trust_roots with
            | none => .ok (true, "chain valid")
            | some e => .ok (false, "chain validation failed: " ++ e))

/-- Embeds extract_key_description_from_cert (lines 91 to 112): missing
extension raises ValueError; a pyasn1 decode failure propagates; on
success the returned dict holds exactly the keys attestationVersion,
attestationSecurityLevel and attestationChallenge copied from the decoded
structure. -/
def extract_key_description_from_cert (env : Env) (cert : Certificate) :
    Except String AttDict :=
  match cert.attExt with
  | none => .error "Attestation extension not found in leaf certificate"
  | some der =>
    match env.der_decode_keydesc der with
    | .error e => .error e
    | .ok kd =>
      .ok { attestationVersion := some kd.attestationVersion,
            attestationSecurityLevel := some kd.attestationSecurityLevel,
            attestationChallenge := some kd.attestationChallenge }

/-! ## Policy engine -/

def hwFailMsg : String :=
  "Not hardware backed (attestationSecurityLevel indicates software)"

def challengeFailMsg : String :=
  "attestation challenge does not match payload nonce"

def appIdFailMsg : String :=
  "payload.app_id does not match expected app id"

def policyOkMsg : String := "policy OK"

/-- Rules (c) and (d) of enforce_policy: the app_id comparison and the
min_patch_level branch whose body is pass (both paths of the if fall
through to the same return). -/
def enforce_policy_app (payload_obj : PayloadObj) (config : Config) :
    Bool × String :=
  if payload_obj.app_id ≠ config.expected_app_id then (false, appIdFailMsg)
  else if pyTruthyInt config.min_patch_level then (true, policyOkMsg)
  else (true, policyOkMsg)

/-- Embeds enforce_policy (utils_x509_attestation lines 114 to 138).
Rule (a): config.get with default True, then the level test against 0 on
the dict value with default 0 (the two nested Python ifs are one
conjunction here). Rule (b): the nonce check is guarded by Python
truthiness of the payload value, so None and the empty string both skip
it; base64.b64decode on a malformed nonce raises, uncaught, modelled as
Except.error. Rules (c) and (d) are enforce_policy_app. -/
def enforce_policy (attestation_dict : AttDict) (payload_obj : PayloadObj)
    (config : Config) : Except String (Bool × String) :=
  if config.require_hardware_backed.getD true &&
     (attestation_dict.attestationSecurityLevel.getD 0 == 0) then
    .ok (false, hwFailMsg)
  else
    match payload_obj.nonce_b64 with
    | none => .ok (enforce_policy_app payload_obj config)
    | some s =>
      if s = "" then .ok (enforce_policy_app payload_obj config)
      else
        match b64decode s with
        | none => .error "binascii.Error: invalid base64 in nonce_b64"
        | some expected =>
          if attestation_dict.attestationChallenge ≠ some expected then
            .ok (false, challengeFailMsg)
          else .ok (enforce_policy_app payload_obj config)

/-! ## Orchestrator -/

/-- The distinct detail strings of the HTTPExceptions raised by
verify_endpoint; constructors carrying a String stand for Python f-string
interpolation of a nested error message. -/
inductive Detail where
  | invalidPayloadCanonical (e : String)
  | invalidX5c (e : String)
  | emptyChain
  | mediaRequired
  | missingContentHash
  | mediaHashMismatch
  | signatureFailed
  | chainValidationFailed (msg : String)
  | attParseFailed (e : String)
  | policyFailed (msg : String)
  deriving DecidableEq

/-- Per-request failure: an HTTPException with its status code, or an
exception the handler does not catch (FastAPI would answer 500). -/
inductive HErr where
  | http (status : Nat) (detail : Detail)
  | uncaught (msg : String)
  deriving DecidableEq

/-- The success body returned by verify_endpoint. -/
structure Verdict where
  ok : Bool
  message : String
  attestationSecurityLevel : Option Int
  deriving DecidableEq

def verdictOkTrue : Except HErr Verdict → Bool
  | .ok v => v.ok
  | .error _ => false

/-- The full success trace of verify_endpoint, in evaluation order. -/
def fullTrace : List Ev :=
  [.decodeInputs, .loadChain, .bindContentHash, .verifySignature,
   .readTrustStore, .validateChain, .parseAttestation, .enforcePolicy]

/-- Boolean trace-prefix test. -/
def isTracePfx : List Ev → List Ev → Bool
  | [], _ => true
  | _ :: _, [] => false
  | x :: xs, y :: ys => x == y && isTracePfx xs ys

/-- payload_canonical.encode("utf-8"): the exact signed bytes. -/
def utf8Bytes (s : String) : Bytes :=
  s.toUTF8.toList.map (·.toNat)

/-- The request form fields of the /verify endpoint; media is the byte
content of the uploaded file, none when absent. -/
structure Request where
  payload_canonical : String
  sig_b64 : String
  x5c_der_b64 : String
  media : Option Bytes

/-- Embeds main.verify_endpoint, returning the outcome together with the
event trace. Control flow mirrors the handler line by line:
json.loads(payload_canonical) in try/except (400 on failure);
base64.b64decode(sig_b64) NOT wrapped, so a failure is uncaught;
json.loads(x5c_der_b64) and load_cert_chain_from_b64_list wrapped (400);
empty-chain check (400); media presence check (400); sha256 of the media
against base64.b64decode(payload.content_hash_b64) where the missing or
empty field gives 400 and a malformed field raises uncaught;
verify_signature_with_pubkey (400 on False);
validate_chain_against_roots, whose internal exceptions are uncaught and
whose (False, msg) outcome gives 400; extract_key_description_from_cert
in try/except (400); enforce_policy NOT wrapped (a raised exception is
uncaught) with a (False, msg) outcome giving 403; finally the ok verdict. -/
def verify_endpoint (env : Env) (req : Request) :
    Except HErr Verdict × List Ev :=
  match env.json_loads_payload req.payload_canonical with
  | none => (.error (.http 400 (.invalidPayloadCanonical "json parse error")), [])
  | some payload_obj =>
    match b64decode req.sig_b64 with
    | none => (.error (.uncaught "binascii.Error: invalid base64 in sig_b64"), [])
    | some sig_bytes =>
      match env.json_loads_strlist req.x5c_der_b64 with
      | none => (.error (.http 400 (.invalidX5c "json parse error")), [.decodeInputs])
      | some x5c_list =>
        match load_cert_chain_from_b64_list env x5c_list with
        | none => (.error (.http 400 (.invalidX5c "certificate load error")), [.decodeInputs])
        | some certs =>
          match certs with
          | [] => (.error (.http 400 .emptyChain), [.decodeInputs])
          | leaf_cert :: intermediates =>
            match req.media with
            | none => (.error (.http 400 .mediaRequired), [.decodeInputs, .loadChain])
            | some media_bytes =>
              match payload_obj.content_hash_b64 with
              | none => (.error (.http 400 .missingContentHash), [.decodeInputs, .loadChain])
              | some content_hash_b64 =>
                if content_hash_b64 = "" then
                  (.error (.http 400 .missingContentHash), [.decodeInputs, .loadChain])
                else
                match b64decode content_hash_b64 with
                | none => (.error (.uncaught "binascii.Error: invalid base64 in content_hash_b64"), [.decodeInputs, .loadChain])
                | some claimed =>
                  if sha256_bytes media_bytes ≠ claimed then
                    (.error (.http 400 .mediaHashMismatch), [.decodeInputs, .loadChain])
                  else
                    if verify_signature_with_pubkey leaf_cert.pubkey
                        (utf8Bytes req.payload_canonical) sig_bytes = false then
                      (.error (.http 400 .signatureFailed),
                       [.decodeInputs, .loadChain, .bindContentHash])
                    else
                      match (validate_chain_against_roots env (leaf_cert :: intermediates)).2 with
                      | .error e =>
                        (.error (.uncaught e),
                         [.decodeInputs, .loadChain, .bindContentHash, .verifySignature] ++
                         (validate_chain_against_roots env (leaf_cert :: intermediates)).1)
                      | .ok (false, msg) =>
                        (.error (.http 400 (.chainValidationFailed msg)),
                         [.decodeInputs, .loadChain, .bindContentHash, .verifySignature] ++
                         (validate_chain_against_roots env (leaf_cert :: intermediates)).1)
                      | .ok (true, _) =>
                        match extract_key_description_from_cert env leaf_cert with
                        | .error e =>
                          (.error (.http 400 (.attParseFailed e)),
                           [.decodeInputs, .loadChain, .bindContentHash, .verifySignature,
                            .readTrustStore, .validateChain])
                        | .ok att =>
                          match enforce_policy att payload_obj env.config with
                          | .error e =>
                            (.error (.uncaught e),
                             [.decodeInputs, .loadChain, .bindContentHash, .verifySignature,
                              .readTrustStore, .validateChain, .parseAttestation])
                          | .ok (false, policy_msg) =>
                            (.error (.http 403 (.policyFailed policy_msg)),
                             [.decodeInputs, .loadChain, .bindContentHash, .verifySignature,
                              .readTrustStore, .validateChain, .parseAttestation])
                          | .ok (true, _) =>
                            (.ok { ok := true, message := "verified",
                                   attestationSecurityLevel := att.attestationSecurityLevel },
                             fullTrace)

/-! ## Concrete fixtures for witnesses and counterexamples -/

/-- A decoded attestation record: version 4, hardware-backed levels,
challenge bytes [9, 9]. -/
def wKD : KeyDescription := ⟨4, 1, 41, 1, [9, 9], [], [], []⟩

/-- A leaf certificate whose EC verification always succeeds and whose
attestation extension bytes are [170]. -/
def wCert : Certificate :=
  { pubkey := .ec (fun _ _ => true), attExt := some [170] }

/-- A payload whose claimed content hash is the digest of media bytes
[1, 2, 3]. -/
def wPayload : PayloadObj :=
  { content_hash_b64 := some (b64encode (sha256_bytes [1, 2, 3])),
    nonce_b64 := none, app_id := none }

/-- The concrete environment: a one-certificate chain, a one-anchor trust
store, a validator that accepts, and a decoder returning wKD. -/
def wEnv : Env :=
  { json_loads_payload := fun s => if s = "payload" then some wPayload else none,
    json_loads_strlist := fun s =>
      if s = "x5c" then some ["AA=="]
      else if s = "trustjson" then some ["pem0"] else none,
    parse_der_cert := fun bs => if bs = [0] then some wCert else none,
    load_pem_cert := fun s => if s = "pem0" then some wCert else none,
    cert_validate := fun _ _ _ => none,
    der_decode_keydesc := fun bs => if bs = [170] then .ok wKD else .error "decode error",
    trust_store_file := some "trustjson",
    config := {} }

/-- A request that passes every pipeline step under wEnv. -/
def wReq : Request :=
  { payload_canonical := "payload", sig_b64 := "AA==",
    x5c_der_b64 := "x5c", media := some [1, 2, 3] }

/-- wEnv with the trust-store file removed from the filesystem. -/
def wEnvNoTrust : Env := { wEnv with trust_store_file := none }

/-- An attestation dict whose security level is the software value 0. -/
def wAttSoftware : AttDict := { attestationSecurityLevel := some 0 }

/-- An attestation dict with a hardware security level and challenge
bytes [9, 9]. -/
def wAttHW : AttDict :=
  { attestationSecurityLevel := some 1, attestationChallenge := some [9, 9] }

/-- The orchestrator property of claim C1: the event trace is always a
prefix of the fixed step order, and the verdict is ok exactly when every
step completed (the trace is the whole order). -/
def orchProp (res : Except HErr Verdict × List Ev) : Prop :=
  isTracePfx res.2 fullTrace = true
  ∧ (verdictOkTrue res.1 = true ↔ res.2 = fullTrace)

/-- The trust-store property of claim C2 as amended: the trust store is
opened during request handling exactly when the request reaches chain
validation (the signature step completed), and with the trust-store file
missing such a request ends in an uncaught per-request error. -/
def trustReadProp (env : Env) (res : Except HErr Verdict × List Ev) : Prop :=
  res.2.contains Ev.readTrustStore = res.2.contains Ev.verifySignature
  ∧ (env.trust_store_file = none → res.2.contains Ev.readTrustStore = true →
      res.1 = .error (.uncaught "FileNotFoundError: trust store file missing"))

/-- Decidable equality for Except results, used to evaluate concrete
pipeline outcomes. -/
instance exceptDecEq {e a : Type} [DecidableEq e] [DecidableEq a] :
    DecidableEq (Except e a) := fun x y =>
  match x, y with
  | .ok u, .ok v =>
    if h : u = v then isTrue (h ▸ rfl)
    else isFalse (fun hc => h (Except.ok.inj hc))
  | .error u, .error v =>
    if h : u = v then isTrue (h ▸ rfl)
    else isFalse (fun hc => h (Except.error.inj hc))
  | .ok _, .error _ => isFalse (fun hc => Except.noConfusion hc)
  | .error _, .ok _ => isFalse (fun hc => Except.noConfusion hc)

/-! ## Theorems -/

set_option maxRecDepth 100000

/-- Helper: the app-id stage never produces the challenge-mismatch
message. -/
theorem enforce_policy_app_ne_challenge (payload_obj : PayloadObj) (config : Config) :
    enforce_policy_app payload_obj config ≠ (false, challengeFailMsg) := by
  unfold enforce_policy_app
  split
  · intro h
    exact absurd (congrArg Prod.snd h) (by decide)
  · split <;> (intro h; exact absurd (congrArg Prod.fst h) (by decide))

/-- Helper: the app-id stage never produces the hardware-backing
message. -/
theorem enforce_policy_app_ne_hw (payload_obj : PayloadObj) (config : Config) :
    enforce_policy_app payload_obj config ≠ (false, hwFailMsg) := by
  unfold enforce_policy_app
  split
  · intro h
    exact absurd (congrArg Prod.snd h) (by decide)
  · split <;> (intro h; exact absurd (congrArg Prod.fst h) (by decide))

/-- Claim C4: for every attestation record whose attestationSecurityLevel
is the software value 0, every payload and every policy configuration with
require_hardware_backed set to true, enforce_policy rejects with the
hardware-backing failure message, independently of any signature or chain
outcome (which enforce_policy does not even receive). -/
theorem C4_policy_hardware_backed_required (att : AttDict) (payload_obj : PayloadObj)
    (config : Config)
    (hlvl : att.attestationSecurityLevel = some 0)
    (hreq : config.require_hardware_backed = some true) :
    enforce_policy att payload_obj config = .ok (false, hwFailMsg) := by
  simp [enforce_policy, hlvl, hreq]

/-- Witness for C4 at a concrete record, payload and configuration. -/
theorem C4_witness :
    enforce_policy wAttSoftware {} { require_hardware_backed := some true } =
      .ok (false, hwFailMsg) :=
  C4_policy_hardware_backed_required wAttSoftware {}
    { require_hardware_backed := some true } rfl rfl

/-- Helper: the app-id stage reads only expected_app_id and
min_patch_level from the configuration. -/
theorem enforce_policy_app_congr (payload_obj : PayloadObj) (c1 c2 : Config)
    (he : c1.expected_app_id = c2.expected_app_id)
    (hm : c1.min_patch_level = c2.min_patch_level) :
    enforce_policy_app payload_obj c1 = enforce_policy_app payload_obj c2 := by
  unfold enforce_policy_app
  rw [he, hm]

/-- Claim C10: a configuration from which require_hardware_backed is
absent behaves exactly as one with it set to true (config.get defaults to
True), and in particular a software-level record is rejected. -/
theorem C10_policy_hw_default (att : AttDict) (payload_obj : PayloadObj)
    (config : Config)
    (habs : config.require_hardware_backed = none) :
    enforce_policy att payload_obj config =
      enforce_policy att payload_obj
        { config with require_hardware_backed := some true }
    ∧ (att.attestationSecurityLevel = some 0 →
        enforce_policy att payload_obj config = .ok (false, hwFailMsg)) := by
  have happ : enforce_policy_app payload_obj
      { config with require_hardware_backed := some true } =
      enforce_policy_app payload_obj config :=
    enforce_policy_app_congr payload_obj _ _ rfl rfl
  constructor
  · simp [enforce_policy, habs, happ]
  · intro h
    simp [enforce_policy, habs, h]

/-- Witness for C10: the empty configuration rejects a software-level
record. -/
theorem C10_witness :
    enforce_policy wAttSoftware {} {} = .ok (false, hwFailMsg) :=
  (C10_policy_hw_default wAttSoftware {} {} rfl).2 rfl

/-- Claim C9: when the payload has no app_id and the configuration has no
expected_app_id, the app-id rule passes (None equals None), so
enforce_policy can never report the app-id mismatch. -/
theorem C9_appid_both_absent (att : AttDict) (payload_obj : PayloadObj)
    (config : Config)
    (hp : payload_obj.app_id = none) (hc : config.expected_app_id = none) :
    enforce_policy_app payload_obj config = (true, policyOkMsg)
    ∧ (enforce_policy att payload_obj config).map Prod.snd ≠
        Except.ok appIdFailMsg := by
  have h1 : enforce_policy_app payload_obj config = (true, policyOkMsg) := by
    unfold enforce_policy_app
    rw [hp, hc]
    simp
  refine ⟨h1, ?_⟩
  unfold enforce_policy
  (repeat' split) <;> (first | (rw [h1]; decide) | decide)

/-- Witness for C9 at a concrete record, payload and configuration. -/
theorem C9_witness :
    enforce_policy_app {} {} = (true, policyOkMsg)
    ∧ (enforce_policy wAttHW {} {}).map Prod.snd ≠ Except.ok appIdFailMsg :=
  C9_appid_both_absent wAttHW {} {} rfl rfl

/-- Claim C3 (code bug): the minimal policy engine does not surface the
patch-level rule at all. Its outcome is invariant under removing
min_patch_level from the configuration, and with min_patch_level
configured and every other rule passing it reports the plain success
outcome (true, policy OK), indistinguishable from a configuration with no
patch requirement: the check silently appears to pass, which the spec
forbids. -/
theorem C3_min_patch_not_surfaced :
    (∀ (att : AttDict) (payload_obj : PayloadObj) (config : Config),
       enforce_policy att payload_obj config =
         enforce_policy att payload_obj { config with min_patch_level := none })
    ∧ enforce_policy wAttHW {} { min_patch_level := some 10 } =
        .ok (true, policyOkMsg) := by
  constructor
  · intro att payload_obj config
    have happ : enforce_policy_app payload_obj
        { config with min_patch_level := none } =
        enforce_policy_app payload_obj config := by
      unfold enforce_policy_app
      simp
    simp [enforce_policy, happ]
  · decide

/-- Claim C5 as amended: with the hardware rule not firing, a payload
carrying a non-empty nonce_b64 that decodes to bytes bs fails with the
challenge-mismatch message exactly when bs differs from the recorded
attestationChallenge, and a payload without nonce_b64 never produces that
failure. -/
theorem C5_nonce_binding (att : AttDict) (payload_obj : PayloadObj)
    (config : Config)
    (hhw : (config.require_hardware_backed.getD true &&
            (att.attestationSecurityLevel.getD 0 == 0)) = false) :
    (∀ s bs, payload_obj.nonce_b64 = some s → s ≠ "" → b64decode s = some bs →
       (enforce_policy att payload_obj config = .ok (false, challengeFailMsg) ↔
        att.attestationChallenge ≠ some bs))
    ∧ (payload_obj.nonce_b64 = none →
        enforce_policy att payload_obj config ≠ .ok (false, challengeFailMsg)) := by
  constructor
  · intro s bs hs hne hdec
    rw [enforce_policy, hhw, hs]
    simp only [Bool.false_eq_true, if_false, hne, if_neg, hdec]
    split
    · next hne2 => simp [hne2]
    · next heq2 =>
      simp only [heq2, iff_false, not_not]
      intro hc
      exact enforce_policy_app_ne_challenge payload_obj config (Except.ok.inj hc)
  · intro hn
    rw [enforce_policy, hhw, hn]
    simp only [Bool.false_eq_true, if_false]
    intro hc
    exact enforce_policy_app_ne_challenge payload_obj config (Except.ok.inj hc)

/-- Witness for C5: a concrete mismatching non-empty nonce fails with the
challenge-mismatch message. -/
theorem C5_witness :
    enforce_policy wAttHW { nonce_b64 := some "AQ==" } {} =
      .ok (false, challengeFailMsg) :=
  ((C5_nonce_binding wAttHW { nonce_b64 := some "AQ==" } {} (by decide)).1
    "AQ==" [1] rfl (by decide) rfl).mpr (by decide)

/-- Counterexample for C5 as stated: a payload that supplies nonce_b64 as
the empty string decodes to empty bytes differing from the recorded
challenge, yet the engine skips the check (Python truthiness) and
succeeds; and when the hardware rule fires first, a mismatched non-empty
nonce is reported as the hardware failure, not the challenge mismatch. -/
theorem C5_counterexample :
    ({ nonce_b64 := some "" } : PayloadObj).nonce_b64 = some ""
    ∧ b64decode "" = some []
    ∧ wAttHW.attestationChallenge ≠ some ([] : Bytes)
    ∧ enforce_policy wAttHW { nonce_b64 := some "" } {} = .ok (true, policyOkMsg)
    ∧ enforce_policy { attestationSecurityLevel := some 0,
                       attestationChallenge := some [9, 9] }
        { nonce_b64 := some "AQ==" } {} = .ok (false, hwFailMsg) := by
  decide

/-- Claim C6 as amended: a key that is neither EC nor RSA yields the
failure value False for every input, with no verification function
consulted (the result is constant), and for EC and RSA keys a library
verification that raises InvalidSignature is caught and returned as the
same failure value False; the embedding is a total function, so no
exception escapes. The failure for an unsupported key type is however not
a distinct category (see the counterexample). -/
theorem C6_sigverify_fail_closed :
    (∀ p s : Bytes, verify_signature_with_pubkey .other p s = false)
    ∧ (∀ v (p s : Bytes), v s p = false →
        verify_signature_with_pubkey (.ec v) p s = false)
    ∧ (∀ v (p s : Bytes), v s p = false →
        verify_signature_with_pubkey (.rsa v) p s = false) :=
  ⟨fun _ _ => rfl, fun _ _ _ h => h, fun _ _ _ h => h⟩

/-- Witness for C6 at concrete keys and bytes. -/
theorem C6_witness :
    verify_signature_with_pubkey .other [0] [0] = false
    ∧ verify_signature_with_pubkey (.ec fun _ _ => false) [0] [0] = false :=
  ⟨C6_sigverify_fail_closed.1 [0] [0],
   C6_sigverify_fail_closed.2.1 _ [0] [0] rfl⟩

/-- Counterexample for C6 as stated: the verifier returns the very same
value for an unsupported key type as for an EC key whose signature is
cryptographically invalid, so there is no distinct UnsupportedKeyType
category in its result. -/
theorem C6_counterexample :
    verify_signature_with_pubkey .other [0] [0] =
      verify_signature_with_pubkey (.ec fun _ _ => false) [0] [0] := rfl

/-- Claim C7 as amended: for a leaf certificate whose attestation
extension parses successfully, the returned dict holds attestationVersion,
attestationSecurityLevel and attestationChallenge copied from the decoded
record, but NOT keymasterSecurityLevel (that key is absent). -/
theorem C7_extract_exposed_fields (env : Env) (cert : Certificate)
    (der : Bytes) (kd : KeyDescription)
    (hext : cert.attExt = some der)
    (hdec : env.der_decode_keydesc der = .ok kd) :
    extract_key_description_from_cert env cert =
      .ok { attestationVersion := some kd.attestationVersion,
            attestationSecurityLevel := some kd.attestationSecurityLevel,
            keymasterSecurityLevel := none,
            attestationChallenge := some kd.attestationChallenge,
            osPatchLevel := none } := by
  simp [extract_key_description_from_cert, hext, hdec]

/-- Witness for C7 at the concrete fixture certificate. -/
theorem C7_witness :
    extract_key_description_from_cert wEnv wCert =
      .ok { attestationVersion := some 4,
            attestationSecurityLevel := some 1,
            keymasterSecurityLevel := none,
            attestationChallenge := some [9, 9],
            osPatchLevel := none } :=
  C7_extract_exposed_fields wEnv wCert [170] wKD rfl rfl

/-- Counterexample for C7 as stated: on a successfully parsed extension
the keymasterSecurityLevel key of the returned dict is absent, so not all
three fields named by the claim are exposed. -/
theorem C7_counterexample :
    (extract_key_description_from_cert wEnv wCert).map
      AttDict.keymasterSecurityLevel = .ok none := by decide

/-- Claim C1: for every environment and request, verify_endpoint runs the
steps decode inputs, load chain, bind content hash, verify signature,
(open trust store), validate chain, parse attestation, enforce policy in
that fixed order: its event trace is always a prefix of the full order
(so no later step runs after an earlier one fails), and the verdict is
ok=true exactly when the trace is the complete order, i.e. every step
succeeded — no lower-layer failure is masked as success. -/
theorem C1_orchestrator_sequencing (env : Env) (req : Request) :
    orchProp (verify_endpoint env req) := by
  unfold verify_endpoint
  (repeat' split) <;>
    (try simp_all [orchProp, verdictOkTrue, fullTrace, isTracePfx,
                   validate_chain_against_roots]) <;>
    decide

/-- Witness for C1: the property instantiated at the concrete passing
environment and request. -/
theorem C1_witness : orchProp (verify_endpoint wEnv wReq) :=
  C1_orchestrator_sequencing wEnv wReq

/-- Claim C2 as amended: the trust-store file is opened by
validate_chain_against_roots during the handling of every request that
reaches chain validation (exactly those whose signature step completed),
not once at startup; and when the trust-store file is missing, such a
request ends in an uncaught per-request FileNotFoundError, not a fatal
startup failure. -/
theorem C2_trust_store_read_per_request (env : Env) (req : Request) :
    trustReadProp env (verify_endpoint env req) := by
  unfold verify_endpoint
  (repeat' split) <;>
    refine ⟨by rfl, fun h1 h2 => ?_⟩ <;>
    first
      | exact absurd h2 (by decide)
      | simp_all [validate_chain_against_roots]

/-- Witness for C2: the amended property instantiated at the concrete
request under the environment with a missing trust-store file. -/
theorem C2_witness : trustReadProp wEnvNoTrust (verify_endpoint wEnvNoTrust wReq) :=
  C2_trust_store_read_per_request wEnvNoTrust wReq

/-- Counterexample for C2 as stated: handling the concrete request opens
the trust-store file (so anchor loading happens during the request, not
only at startup), and with the file missing the very same request fails
with an uncaught per-request error rather than the process having refused
to start. -/
theorem C2_counterexample :
    (verify_endpoint wEnv wReq).2.contains Ev.readTrustStore = true
    ∧ (verify_endpoint wEnvNoTrust wReq).1 =
        .error (.uncaught "FileNotFoundError: trust store file missing") := by
  decide

/-- Helper: big-endian byte serialization of k bytes has length k. -/
theorem natToBytesBE_length (k n : Nat) : (natToBytesBE k n).length = k := by
  induction k generalizing n with
  | zero => rfl
  | succ k ih => simp [natToBytesBE, ih]

/-- Helper: the digest is always 32 bytes (a 256-bit digest). -/
theorem sha256_bytes_length (data : Bytes) : (sha256_bytes data).length = 32 := by
  simp [sha256_bytes, natToBytesBE_length]

/-- Claim C8: for every request that reaches the content-hash step with a
decodable claimed hash, the handler recomputes the SHA-256 digest of the
exact media bytes (a 32-byte, 256-bit digest) and compares it
byte-for-byte with the base64-decoded claimed hash: the verdict is the
content-hash-mismatch rejection exactly when the two byte strings differ,
and the step completes (the pipeline proceeds) exactly when they are
equal. -/
theorem C8_content_hash_binding (env : Env) (req : Request)
    (payload_obj : PayloadObj) (sigb : Bytes) (x5c : List String)
    (leaf_cert : Certificate) (intermediates : List Certificate)
    (m : Bytes) (s : String) (claimed : Bytes)
    (h1 : env.json_loads_payload req.payload_canonical = some payload_obj)
    (h2 : b64decode req.sig_b64 = some sigb)
    (h3 : env.json_loads_strlist req.x5c_der_b64 = some x5c)
    (h4 : load_cert_chain_from_b64_list env x5c = some (leaf_cert :: intermediates))
    (h5 : req.media = some m)
    (h6 : payload_obj.content_hash_b64 = some s)
    (h7 : s ≠ "")
    (h8 : b64decode s = some claimed) :
    ((verify_endpoint env req).1 = .error (.http 400 .mediaHashMismatch) ↔
       sha256_bytes m ≠ claimed)
    ∧ ((verify_endpoint env req).2.contains Ev.bindContentHash = true ↔
       sha256_bytes m = claimed)
    ∧ (sha256_bytes m).length = 32 := by
  refine ⟨?_, ?_, sha256_bytes_length m⟩ <;>
  · simp only [verify_endpoint, h1, h2, h3, h4, h5, h6]
    rw [if_neg h7]
    simp only [h8]
    by_cases hc : sha256_bytes m = claimed
    · simp only [hc, ne_eq, not_true_eq_false, if_false, ite_not, if_pos rfl]
      (repeat' split) <;> (try simp_all [validate_chain_against_roots]) <;> decide
    · try simp only [ne_eq, hc, not_false_eq_true, if_true, if_pos]
      try simp [hc]
      try decide

/-- Witness for C8: the concrete passing request, whose claimed hash is
the base64 encoding of the digest of its own media bytes. -/
theorem C8_witness :
    ((verify_endpoint wEnv wReq).1 = .error (.http 400 .mediaHashMismatch) ↔
       sha256_bytes [1, 2, 3] ≠ sha256_bytes [1, 2, 3])
    ∧ ((verify_endpoint wEnv wReq).2.contains Ev.bindContentHash = true ↔
       sha256_bytes [1, 2, 3] = sha256_bytes [1, 2, 3])
    ∧ (sha256_bytes [1, 2, 3]).length = 32 :=
  C8_content_hash_binding wEnv wReq wPayload [0] ["AA=="] wCert [] [1, 2, 3]
    (b64encode (sha256_bytes [1, 2, 3])) (sha256_bytes [1, 2, 3])
    rfl rfl rfl rfl rfl rfl (by decide) (by decide)
